import Mathlib

/-!
Shallow embedding of the task-management backend (Go / Fiber / MongoDB):
object identifiers, the user and task data model, password hashing, JWT
issuance and validation, the authorization middleware, and the sign-up,
sign-in and task CRUD handlers. Persistent collections are modelled as
lists of records; single-document driver operations act on the first
record matching the filter. Timestamps are integers (Unix seconds).
-/

namespace TaskMgmt

/-- A MongoDB object identifier: twelve bytes (`primitive.ObjectID`). -/
structure ObjectID where
  data : List Nat
deriving DecidableEq, Repr

/-- The all-zero object identifier (`primitive.NilObjectID`), the zero value
    that `primitive.ObjectIDFromHex` returns alongside an error. -/
def NilObjectID : ObjectID := ⟨List.replicate 12 0⟩

/-- Value of one hexadecimal digit character, case-insensitive
    (as accepted by Go `hex.DecodeString`). -/
def hexVal (c : Char) : Option Nat :=
  if '0' ≤ c ∧ c ≤ '9' then some (c.toNat - 48)
  else if 'a' ≤ c ∧ c ≤ 'f' then some (c.toNat - 87)
  else if 'A' ≤ c ∧ c ≤ 'F' then some (c.toNat - 55)
  else none

/-- Decode a hexadecimal character list two digits to a byte
    (Go `hex.DecodeString`); fails on odd length or a non-hex character. -/
def decodeHex : List Char → Option (List Nat)
  | [] => some []
  | [_] => none
  | c1 :: c2 :: rest =>
    match hexVal c1, hexVal c2, decodeHex rest with
    | some hi, some lo, some bs => some ((16 * hi + lo) :: bs)
    | _, _, _ => none

/-- `primitive.ObjectIDFromHex`: a string decodes to an identifier exactly
    when it is twenty-four hexadecimal characters. -/
def ObjectIDFromHex (s : String) : Option ObjectID :=
  if s.data.length = 24 then (decodeHex s.data).map ObjectID.mk else none

/-- The handlers write `userIdHex, _ := primitive.ObjectIDFromHex(userId)`,
    discarding the error and keeping the zero identifier on failure. -/
def oidFromHexOrNil (s : String) : ObjectID :=
  (ObjectIDFromHex s).getD NilObjectID

/-- Lower-case hexadecimal digit for a value below sixteen. -/
def hexDigit (n : Nat) : Char :=
  if n < 10 then Char.ofNat (48 + n) else Char.ofNat (87 + n)

/-- `ObjectID.Hex`: lower-case hexadecimal rendering of the identifier bytes. -/
def ObjectID.Hex (o : ObjectID) : String :=
  ⟨(o.data.map (fun b => [hexDigit (b / 16), hexDigit (b % 16)])).flatten⟩

/-- `models.User`: identifier, username, password (hash once stored). -/
structure User where
  id : ObjectID
  username : String
  password : String
deriving DecidableEq, Repr

/-- `models.Task`: identifier, owning user identifier, and the task fields. -/
structure Task where
  id : ObjectID
  userId : ObjectID
  title : String
  description : String
  allottedTo : String
  doneBy : String
  status : String
  startDate : Int
  endDate : Int
deriving DecidableEq, Repr

/-- `utils.HashPassword` (bcrypt with cost fourteen), modelled symbolically:
    an injective tagged transform of the password. -/
def HashPassword (p : String) : String := "$2a$14$" ++ p

/-- `utils.CheckPasswordHash`: true exactly when the hash is the bcrypt hash
    of the password. -/
def CheckPasswordHash (p h : String) : Bool := decide (h = HashPassword p)

/-- Symbolic HMAC-SHA256 tag over the claim set, keyed by the secret:
    a perfect message-authentication code. -/
def macSign (userId : String) (exp : Int) (secret : String) : String × Int × String :=
  (userId, exp, secret)

/-- A signed JWT carrying the `userId` claim and an absolute expiry
    timestamp in Unix seconds (`exp`), plus its signature. -/
structure Token where
  userId : String
  exp : Int
  sig : String × Int × String
deriving DecidableEq, Repr

/-- Validation failures of a parsed token (`jwt.ValidationError` causes). -/
inductive JWTError where
  | invalidSignature
  | expired
deriving DecidableEq, Repr

/-- Token issuance as in `SignIn`: HS256-sign the claim set with the secret. -/
def signToken (secret : String) (userId : String) (exp : Int) : Token :=
  ⟨userId, exp, macSign userId exp secret⟩

/-- Token validation as in `jwt.Parse`: the claims are validated (the token
    is alive only while the current time is strictly before `exp`, as in
    `verifyExp`), then the signature is checked against the secret. -/
def validateToken (secret : String) (now : Int) (tok : Token) : Except JWTError String :=
  if tok.exp ≤ now then .error .expired
  else if tok.sig ≠ macSign tok.userId tok.exp secret then .error .invalidSignature
  else .ok tok.userId

/-- A response body: a JSON error object, a user or task record, a token,
    a plain message, or no content. -/
inductive Body where
  | err (msg : String)
  | user (u : User)
  | tok (t : Token)
  | task (t : Task)
  | message (msg : String)
  | noContent
deriving DecidableEq, Repr

/-- An HTTP response: status code and body. -/
structure Resp where
  status : Nat
  body : Body
deriving DecidableEq, Repr

/-- `FindOne` on the users collection with filter `{username: un}`:
    the first stored record with that username. -/
def findUserByUsername (store : List User) (un : String) : Option User :=
  store.find? (fun u => decide (u.username = un))

/-- `FindOne` on the tasks collection with filter `{_id: tid, userId: uid}`:
    the first stored record matching both conjuncts. -/
def findTask (store : List Task) (tid uid : ObjectID) : Option Task :=
  store.find? (fun t => decide (t.id = tid ∧ t.userId = uid))

/-- `UpdateOne` with filter `{_id: tid, userId: uid}` and a full-document
    `$set`: replaces the first matching record with `new`; `none` when the
    filter matches nothing (`MatchedCount == 0`). -/
def updateFirstTask (store : List Task) (tid uid : ObjectID) (new : Task) :
    Option (List Task) :=
  match store with
  | [] => none
  | t :: ts =>
    if t.id = tid ∧ t.userId = uid then some (new :: ts)
    else (updateFirstTask ts tid uid new).map (t :: ·)

/-- `DeleteOne` with filter `{_id: tid, userId: uid}`: removes the first
    matching record; `none` when nothing matches (`DeletedCount == 0`). -/
def deleteFirstTask (store : List Task) (tid uid : ObjectID) : Option (List Task) :=
  match store with
  | [] => none
  | t :: ts =>
    if t.id = tid ∧ t.userId = uid then some ts
    else (deleteFirstTask ts tid uid).map (t :: ·)

/-- `handlers.SignUp`: on a parsed body (`none` models a body-parse failure),
    look the username up, treat the decoded record's non-empty username as
    "already taken", otherwise hash the password and insert. `gen` is the
    identifier the driver generates when the inserted record's is zero. -/
def SignUp (store : List User) (body? : Option User) (gen : ObjectID) :
    List User × Resp :=
  match body? with
  | none => (store, ⟨400, .err "cannot parse JSON"⟩)
  | some user =>
    let existing := (findUserByUsername store user.username).getD ⟨NilObjectID, "", ""⟩
    if existing.username ≠ "" then
      (store, ⟨400, .err "username already taken"⟩)
    else
      let hashed := { user with password := HashPassword user.password }
      let created := if hashed.id = NilObjectID then { hashed with id := gen } else hashed
      (store ++ [created], ⟨201, .user created⟩)

/-- `handlers.SignIn`: blank-field check, user lookup, bcrypt verification,
    then issuance of a token whose claims are the found user's identifier in
    hexadecimal string form and expiry `now + ttl` seconds. -/
def SignIn (store : List User) (body? : Option User) (secret : String)
    (ttl now : Int) : Resp :=
  match body? with
  | none => ⟨400, .err "cannot parse JSON"⟩
  | some user =>
    if user.username = "" ∨ user.password = "" then
      ⟨400, .err "username and password should not be blank!"⟩
    else
      match findUserByUsername store user.username with
      | none => ⟨401, .err "invalid credentials"⟩
      | some found =>
        if ! CheckPasswordHash user.password found.password then
          ⟨401, .err "invalid credentials"⟩
        else
          ⟨200, .tok (signToken secret found.id.Hex (now + ttl))⟩

/-- The Authorization header as the middleware sees it: absent, present but
    not parseable as a JWT, or a parsed token. -/
inductive AuthHeader where
  | missing
  | unparseable
  | tok (t : Token)
deriving DecidableEq, Repr

/-- `utils.JWTMiddleware`: 401 on a missing header, a parse failure or an
    invalid token; on success the `userId` claim string is attached to the
    request context (the `.ok` value) for the downstream handler. -/
def JWTMiddleware (secret : String) (now : Int) (h : AuthHeader) :
    Except Resp String :=
  match h with
  | .missing => .error ⟨401, .err "missing or malformed JWT"⟩
  | .unparseable => .error ⟨401, .err "invalid JWT"⟩
  | .tok t =>
    match validateToken secret now t with
    | .error _ => .error ⟨401, .err "invalid JWT"⟩
    | .ok uid => .ok uid

/-- `handlers.CreateTask`: validate that the assignee username exists, then
    server-set identifier (`gen`, a fresh `primitive.NewObjectID`), owner
    (decoded from the context user identifier with the error discarded),
    start time (`now`) and status before inserting; the inserted record is
    echoed with status 201. -/
def CreateTask (users : List User) (tasks : List Task) (userId : String)
    (body? : Option Task) (gen : ObjectID) (now : Int) : List Task × Resp :=
  match body? with
  | none => (tasks, ⟨400, .err "Cannot parse JSON"⟩)
  | some task =>
    match findUserByUsername users task.allottedTo with
    | none => (tasks, ⟨400, .err "Allotted user does not exist"⟩)
    | some _ =>
      let stored := { task with
        id := gen, userId := oidFromHexOrNil userId,
        startDate := now, status := "Pending" }
      (tasks ++ [stored], ⟨201, .task stored⟩)

/-- `handlers.GetTask`: parse the path identifier (400 on failure), then look
    the task up by identifier and owner jointly (404 when nothing matches). -/
def GetTask (tasks : List Task) (userId taskId : String) : Resp :=
  match ObjectIDFromHex taskId with
  | none => ⟨400, .err "Invalid task ID"⟩
  | some tid =>
    match findTask tasks tid (oidFromHexOrNil userId) with
    | none => ⟨404, .err "Task not found"⟩
    | some t => ⟨200, .task t⟩

/-- `handlers.UpdateTask`: parse the path identifier and the body, force-set
    the record's identifier and owner from path and context, then update the
    record matching both identifier and owner; 404 when the filter matched
    nothing, else the locally built record is echoed with status 200. -/
def UpdateTask (tasks : List Task) (userId taskId : String)
    (body? : Option Task) : List Task × Resp :=
  match ObjectIDFromHex taskId with
  | none => (tasks, ⟨400, .err "Invalid task ID"⟩)
  | some tid =>
    match body? with
    | none => (tasks, ⟨400, .err "Cannot parse JSON"⟩)
    | some task =>
      let uid := oidFromHexOrNil userId
      let stored := { task with userId := uid, id := tid }
      match updateFirstTask tasks tid uid stored with
      | none => (tasks, ⟨404, .err "Task not found"⟩)
      | some tasks2 => (tasks2, ⟨200, .task stored⟩)

/-- `handlers.DeleteTask`: parse the path identifier, delete the record
    matching both identifier and owner; 404 when nothing was deleted,
    else 204 with no content. -/
def DeleteTask (tasks : List Task) (userId taskId : String) :
    List Task × Resp :=
  match ObjectIDFromHex taskId with
  | none => (tasks, ⟨400, .err "Invalid task ID"⟩)
  | some tid =>
    match deleteFirstTask tasks tid (oidFromHexOrNil userId) with
    | none => (tasks, ⟨404, .err "Task not found"⟩)
    | some tasks2 => (tasks2, ⟨204, .noContent⟩)


/-! ### Helper lemmas about the store operations -/

/-- `find?` skips a prefix none of whose elements satisfies the predicate. -/
lemma find?_append_of_forall_not {α : Type} (p : α → Bool) (l1 l2 : List α)
    (h : ∀ x ∈ l1, ¬ p x) : (l1 ++ l2).find? p = l2.find? p := by
  induction l1 with
  | nil => rfl
  | cons a l ih =>
    have ha : p a = false := by
      have := h a (by simp)
      simpa using this
    rw [List.cons_append, List.find?_cons, ha]
    exact ih (fun x hx => h x (by simp [hx]))

/-- An update whose filter matches no stored record reports zero matches. -/
lemma updateFirstTask_eq_none (store : List Task) (tid uid : ObjectID) (new : Task)
    (h : ∀ t ∈ store, ¬ (t.id = tid ∧ t.userId = uid)) :
    updateFirstTask store tid uid new = none := by
  induction store with
  | nil => rfl
  | cons a l ih =>
    rw [updateFirstTask, if_neg (h a (by simp)),
      ih (fun t ht => h t (by simp [ht]))]
    rfl

/-- A successful update stores the written record. -/
lemma updateFirstTask_mem (store : List Task) (tid uid : ObjectID) (new : Task)
    (store2 : List Task) (h : updateFirstTask store tid uid new = some store2) :
    new ∈ store2 := by
  induction store generalizing store2 with
  | nil => exact absurd h (by simp [updateFirstTask])
  | cons a l ih =>
    rw [updateFirstTask] at h
    by_cases hc : a.id = tid ∧ a.userId = uid
    · rw [if_pos hc] at h
      cases h
      exact List.mem_cons_self _ _
    · rw [if_neg hc] at h
      obtain ⟨s, hs, rfl⟩ := Option.map_eq_some'.mp h
      exact List.mem_cons_of_mem _ (ih s hs)

/-- Every record present after a successful update is the written record or
    was already stored. -/
lemma updateFirstTask_sub (store : List Task) (tid uid : ObjectID) (new : Task)
    (store2 : List Task) (h : updateFirstTask store tid uid new = some store2) :
    ∀ t ∈ store2, t = new ∨ t ∈ store := by
  induction store generalizing store2 with
  | nil => exact absurd h (by simp [updateFirstTask])
  | cons a l ih =>
    rw [updateFirstTask] at h
    by_cases hc : a.id = tid ∧ a.userId = uid
    · rw [if_pos hc] at h
      cases h
      intro t ht
      rcases List.mem_cons.mp ht with h1 | h2
      · exact Or.inl h1
      · exact Or.inr (List.mem_cons_of_mem _ h2)
    · rw [if_neg hc] at h
      obtain ⟨s, hs, rfl⟩ := Option.map_eq_some'.mp h
      intro t ht
      rcases List.mem_cons.mp ht with h1 | h2
      · exact Or.inr (h1 ▸ List.mem_cons_self _ _)
      · rcases ih s hs t h2 with h3 | h4
        · exact Or.inl h3
        · exact Or.inr (List.mem_cons_of_mem _ h4)

/-- A delete whose filter matches no stored record deletes nothing. -/
lemma deleteFirstTask_eq_none (store : List Task) (tid uid : ObjectID)
    (h : ∀ t ∈ store, ¬ (t.id = tid ∧ t.userId = uid)) :
    deleteFirstTask store tid uid = none := by
  induction store with
  | nil => rfl
  | cons a l ih =>
    rw [deleteFirstTask, if_neg (h a (by simp)),
      ih (fun t ht => h t (by simp [ht]))]
    rfl

/-! ### Claim theorems -/

/-- C5: a token issued with subject S and expiry E fails validation with
    `Expired` at any current time strictly greater than E, and at any current
    time at least one second before E it does not fail with `Expired`: with
    the signature and shape valid it succeeds, recovering S. -/
theorem token_expiry_boundary (secret S : String) (E now : Int) :
    (E < now → validateToken secret now (signToken secret S E) = .error .expired) ∧
    (now ≤ E - 1 → validateToken secret now (signToken secret S E) = .ok S) := by
  constructor
  · intro h
    rw [validateToken, if_pos (by exact le_of_lt h)]
  · intro h
    rw [validateToken, if_neg (by simp only [signToken]; omega),
      if_neg (by simp [signToken])]
    rfl

/-- C5 witness: at expiry 100, validation at time 101 is `Expired` and at
    time 99 succeeds with the subject. -/
theorem token_expiry_boundary_witness :
    validateToken "s" 101 (signToken "s" "u" 100) = .error .expired ∧
    validateToken "s" 99 (signToken "s" "u" 100) = .ok "u" :=
  ⟨(token_expiry_boundary "s" "u" 100 101).1 (by decide),
   (token_expiry_boundary "s" "u" 100 99).2 (by decide)⟩

/-- C4: for a sign-in request with non-blank username and password, an
    unknown username and a failed password verification both produce status
    401 with the identical body, so the two failure causes are
    indistinguishable to the client. -/
theorem signin_failure_indistinguishable (store : List User) (body : User)
    (secret : String) (ttl now : Int)
    (hun : body.username ≠ "") (hpw : body.password ≠ "") :
    (findUserByUsername store body.username = none →
      SignIn store (some body) secret ttl now = ⟨401, .err "invalid credentials"⟩) ∧
    (∀ found, findUserByUsername store body.username = some found →
      CheckPasswordHash body.password found.password = false →
      SignIn store (some body) secret ttl now = ⟨401, .err "invalid credentials"⟩) := by
  constructor
  · intro h
    simp [SignIn, hun, hpw, h]
  · intro found hf hc
    simp [SignIn, hun, hpw, hf, hc]

/-- C4 witness: with one stored user, an unknown username and a wrong
    password for the known username yield literally the same response. -/
theorem signin_failure_indistinguishable_witness :
    SignIn [⟨NilObjectID, "alice", HashPassword "pw"⟩]
        (some ⟨NilObjectID, "bob", "pw"⟩) "s" 60 0 =
      ⟨401, .err "invalid credentials"⟩ ∧
    SignIn [⟨NilObjectID, "alice", HashPassword "pw"⟩]
        (some ⟨NilObjectID, "alice", "wrong"⟩) "s" 60 0 =
      ⟨401, .err "invalid credentials"⟩ :=
  ⟨(signin_failure_indistinguishable [⟨NilObjectID, "alice", HashPassword "pw"⟩]
      ⟨NilObjectID, "bob", "pw"⟩ "s" 60 0 (by decide) (by decide)).1 (by decide),
   (signin_failure_indistinguishable [⟨NilObjectID, "alice", HashPassword "pw"⟩]
      ⟨NilObjectID, "alice", "wrong"⟩ "s" 60 0 (by decide) (by decide)).2
      ⟨NilObjectID, "alice", HashPassword "pw"⟩ (by decide) (by decide)⟩

/-- C7: a create call whose assignee username has no matching user record
    yields 400 and leaves the task store unchanged. -/
theorem create_unknown_assignee (users : List User) (tasks : List Task)
    (userId : String) (body : Task) (gen : ObjectID) (now : Int)
    (hA : ∀ u ∈ users, u.username ≠ body.allottedTo) :
    CreateTask users tasks userId (some body) gen now =
      (tasks, ⟨400, .err "Allotted user does not exist"⟩) := by
  have h : findUserByUsername users body.allottedTo = none := by
    rw [findUserByUsername, List.find?_eq_none]
    intro u hu
    simp [hA u hu]
  simp [CreateTask, h]

/-- C7 witness: creating a task allotted to an unknown username in an empty
    user store yields 400 and an unchanged (empty) task store. -/
theorem create_unknown_assignee_witness :
    CreateTask [] [] "u" (some ⟨NilObjectID, NilObjectID, "t", "d", "ghost", "", "", 0, 0⟩)
        NilObjectID 5 =
      ([], ⟨400, .err "Allotted user does not exist"⟩) :=
  create_unknown_assignee [] [] "u" ⟨NilObjectID, NilObjectID, "t", "d", "ghost", "", "", 0, 0⟩
    NilObjectID 5 (by simp)

/-! ### Sample records used by the concrete witnesses -/

/-- Sample identifier: the bytes decoded from twenty-four letters a. -/
def oidA : ObjectID := ⟨List.replicate 12 170⟩

/-- Sample identifier: the bytes decoded from the digits 61 repeated. -/
def oidB : ObjectID := ⟨List.replicate 12 97⟩

/-- Hexadecimal string decoding to `oidA`. -/
def hexA : String := "aaaaaaaaaaaaaaaaaaaaaaaa"

/-- Hexadecimal string decoding to `oidB`. -/
def hexB : String := "616161616161616161616161"

/-- A sample stored task owned by `oidB` with identifier `oidA`. -/
def sampleTask : Task := ⟨oidA, oidB, "t", "d", "a", "", "Pending", 0, 0⟩

/-- A sample update body that tries to supply its own identifier and owner. -/
def sampleBody : Task := ⟨⟨[7]⟩, ⟨[8]⟩, "n", "n", "a", "", "Done", 1, 2⟩

/-- C6: a create call with a parsed body, an existing assignee and a
    well-formed authenticated identifier inserts exactly one record whose
    identifier is the freshly generated one, whose owner is the authenticated
    identifier, whose start time is the current time and whose status is
    "Pending" — overriding whatever the caller supplied for those fields —
    and returns (201) exactly the record it stored. -/
theorem create_server_set_fields (users : List User) (tasks : List Task)
    (userId : String) (body : Task) (gen : ObjectID) (now : Int) (U : ObjectID)
    (hU : ObjectIDFromHex userId = some U)
    (hA : ∃ u ∈ users, u.username = body.allottedTo) :
    CreateTask users tasks userId (some body) gen now =
      (tasks ++ [{ body with id := gen, userId := U, startDate := now, status := "Pending" }],
       ⟨201, .task { body with id := gen, userId := U, startDate := now, status := "Pending" }⟩) := by
  obtain ⟨u, hu, hname⟩ := hA
  have hsome : (findUserByUsername users body.allottedTo).isSome := by
    rw [findUserByUsername, List.find?_isSome]
    exact ⟨u, hu, by simp [hname]⟩
  obtain ⟨v, hv⟩ := Option.isSome_iff_exists.mp hsome
  simp [CreateTask, hv, oidFromHexOrNil, hU]

/-- C6 witness: with the assignee stored and a well-formed context
    identifier, the create call stores and returns the server-set record. -/
theorem create_server_set_fields_witness :
    CreateTask [⟨NilObjectID, "a", "h"⟩] [] hexB (some sampleBody) ⟨[1]⟩ 5 =
      ([{ sampleBody with id := ⟨[1]⟩, userId := oidB, startDate := 5, status := "Pending" }],
       ⟨201, .task { sampleBody with id := ⟨[1]⟩, userId := oidB, startDate := 5, status := "Pending" }⟩) :=
  create_server_set_fields [⟨NilObjectID, "a", "h"⟩] [] hexB sampleBody ⟨[1]⟩ 5 oidB
    (by decide) ⟨⟨NilObjectID, "a", "h"⟩, by simp [sampleBody]⟩

/-- C10: when the token-supplied user identifier string is not a well-formed
    object identifier, the conversion error is discarded and the task is
    still created (201), with its owner the all-zero identifier. -/
theorem create_malformed_identity_zero_owner (users : List User)
    (tasks : List Task) (userId : String) (body : Task) (gen : ObjectID)
    (now : Int)
    (hU : ObjectIDFromHex userId = none)
    (hA : ∃ u ∈ users, u.username = body.allottedTo) :
    CreateTask users tasks userId (some body) gen now =
      (tasks ++ [{ body with id := gen, userId := NilObjectID, startDate := now, status := "Pending" }],
       ⟨201, .task { body with id := gen, userId := NilObjectID, startDate := now, status := "Pending" }⟩) := by
  obtain ⟨u, hu, hname⟩ := hA
  have hsome : (findUserByUsername users body.allottedTo).isSome := by
    rw [findUserByUsername, List.find?_isSome]
    exact ⟨u, hu, by simp [hname]⟩
  obtain ⟨v, hv⟩ := Option.isSome_iff_exists.mp hsome
  simp [CreateTask, hv, oidFromHexOrNil, hU]

/-- C10 witness: the context identifier "bogus" does not decode, yet the
    task is created, owned by the zero identifier. -/
theorem create_malformed_identity_zero_owner_witness :
    CreateTask [⟨NilObjectID, "a", "h"⟩] [] "bogus" (some sampleBody) ⟨[2]⟩ 5 =
      ([{ sampleBody with id := ⟨[2]⟩, userId := NilObjectID, startDate := 5, status := "Pending" }],
       ⟨201, .task { sampleBody with id := ⟨[2]⟩, userId := NilObjectID, startDate := 5, status := "Pending" }⟩) :=
  create_malformed_identity_zero_owner [⟨NilObjectID, "a", "h"⟩] [] "bogus"
    sampleBody ⟨[2]⟩ 5 (by decide) ⟨⟨NilObjectID, "a", "h"⟩, by simp [sampleBody]⟩

/-- C1: Get, Update and Delete look tasks up by the conjunction of the task
    identifier from the path and the owner identifier from the authenticated
    context; when no stored task satisfies both conjuncts all three return
    404 and leave the store untouched, and a task returned by Get is always a
    stored task with exactly that identifier and owner. -/
theorem task_ops_owner_scoped (tasks : List Task) (userId taskId : String)
    (T : ObjectID) (body : Task)
    (hT : ObjectIDFromHex taskId = some T) :
    ((∀ t ∈ tasks, ¬ (t.id = T ∧ t.userId = oidFromHexOrNil userId)) →
      GetTask tasks userId taskId = ⟨404, .err "Task not found"⟩ ∧
      UpdateTask tasks userId taskId (some body) =
        (tasks, ⟨404, .err "Task not found"⟩) ∧
      DeleteTask tasks userId taskId = (tasks, ⟨404, .err "Task not found"⟩)) ∧
    (∀ t, GetTask tasks userId taskId = ⟨200, .task t⟩ →
      t ∈ tasks ∧ t.id = T ∧ t.userId = oidFromHexOrNil userId) := by
  constructor
  · intro hno
    have hfind : findTask tasks T (oidFromHexOrNil userId) = none := by
      rw [findTask, List.find?_eq_none]
      intro t ht
      simp [hno t ht]
    refine ⟨?_, ?_, ?_⟩
    · simp [GetTask, hT, hfind]
    · simp [UpdateTask, hT, updateFirstTask_eq_none tasks T (oidFromHexOrNil userId) _ hno]
    · simp [DeleteTask, hT, deleteFirstTask_eq_none tasks T (oidFromHexOrNil userId) hno]
  · intro t hget
    simp only [GetTask, hT] at hget
    cases hfind : findTask tasks T (oidFromHexOrNil userId) with
    | none => rw [hfind] at hget; exact absurd hget (by simp)
    | some t2 =>
      rw [hfind] at hget
      have ht2 : t2 = t := by
        have := congrArg Resp.body hget
        simpa using this
      subst ht2
      have hp := List.find?_some hfind
      have hm := List.mem_of_find?_eq_some hfind
      simp only [decide_eq_true_eq] at hp
      exact ⟨hm, hp.1, hp.2⟩

/-- C1 witness: with the single stored task owned by another identifier, Get,
    Update and Delete all answer 404 and leave the store unchanged. -/
theorem task_ops_owner_scoped_witness :
    GetTask [sampleTask] hexA hexA = ⟨404, .err "Task not found"⟩ ∧
    UpdateTask [sampleTask] hexA hexA (some sampleBody) =
      ([sampleTask], ⟨404, .err "Task not found"⟩) ∧
    DeleteTask [sampleTask] hexA hexA =
      ([sampleTask], ⟨404, .err "Task not found"⟩) :=
  (task_ops_owner_scoped [sampleTask] hexA hexA oidA sampleBody
    (by decide)).1 (by decide)

/-- C2: whenever Update answers 200, the record it wrote — and echoes — has
    the path task identifier and the context owner identifier, whatever
    identifier or owner the body carried; the written record is stored, and
    every record stored afterwards is either the written one or was already
    present. -/
theorem update_forces_path_and_owner (tasks : List Task) (userId taskId : String)
    (body : Task) (T U : ObjectID)
    (hT : ObjectIDFromHex taskId = some T)
    (hU : ObjectIDFromHex userId = some U) :
    ∀ tasks2 resp, UpdateTask tasks userId taskId (some body) = (tasks2, resp) →
      resp.status = 200 →
      resp = ⟨200, .task { body with userId := U, id := T }⟩ ∧
      { body with userId := U, id := T } ∈ tasks2 ∧
      ∀ t ∈ tasks2, t = { body with userId := U, id := T } ∨ t ∈ tasks := by
  intro tasks2 resp heq hst
  have hoid : oidFromHexOrNil userId = U := by simp [oidFromHexOrNil, hU]
  simp only [UpdateTask, hT, hoid] at heq
  cases hupd : updateFirstTask tasks T U { body with userId := U, id := T } with
  | none =>
    rw [hupd] at heq
    cases heq
    exact absurd hst (by decide)
  | some ts2 =>
    rw [hupd] at heq
    cases heq
    exact ⟨rfl, updateFirstTask_mem _ _ _ _ _ hupd,
      updateFirstTask_sub _ _ _ _ _ hupd⟩

/-- C2 witness: updating an owned task with a body that supplies a different
    identifier and owner writes the path/context values instead. -/
theorem update_forces_path_and_owner_witness :
    UpdateTask [⟨oidA, oidB, "t", "d", "a", "", "Pending", 0, 0⟩] hexB hexA
        (some sampleBody) =
      ([{ sampleBody with userId := oidB, id := oidA }],
       ⟨200, .task { sampleBody with userId := oidB, id := oidA }⟩) ∧
    ({ sampleBody with userId := oidB, id := oidA } ∈
      [{ sampleBody with userId := oidB, id := oidA }]) := by
  have h := update_forces_path_and_owner
    [⟨oidA, oidB, "t", "d", "a", "", "Pending", 0, 0⟩] hexB hexA sampleBody
    oidA oidB (by decide) (by decide)
    [{ sampleBody with userId := oidB, id := oidA }]
    ⟨200, .task { sampleBody with userId := oidB, id := oidA }⟩
    (by decide) (by decide)
  exact ⟨by decide, h.2.1⟩

/-- C8 counterexample: with a stored user whose username is blank, signing up
    that same (blank) username again is answered 201 — not the conflict
    error — and a second record with that username is inserted, because the
    existence check tests the decoded record's username against the empty
    string. -/
theorem signup_blank_username_duplicate :
    SignUp [⟨NilObjectID, "", "h"⟩] (some ⟨NilObjectID, "", "pw"⟩) ⟨[1]⟩ =
      ([⟨NilObjectID, "", "h"⟩, ⟨⟨[1]⟩, "", HashPassword "pw"⟩],
       ⟨201, .user ⟨⟨[1]⟩, "", HashPassword "pw"⟩⟩) := by
  decide

/-- C8 (amended): for a sign-up request whose username is non-blank and
    already has a stored user record, the operation fails with the conflict
    response (400, "username already taken") and the identity store is
    unchanged — no second record is inserted. -/
theorem signup_conflict_nonblank (store : List User) (body : User)
    (gen : ObjectID)
    (hun : body.username ≠ "")
    (hdup : ∃ u ∈ store, u.username = body.username) :
    SignUp store (some body) gen =
      (store, ⟨400, .err "username already taken"⟩) := by
  obtain ⟨u, hu, hname⟩ := hdup
  have hsome : (findUserByUsername store body.username).isSome := by
    rw [findUserByUsername, List.find?_isSome]
    exact ⟨u, hu, by simp [hname]⟩
  obtain ⟨v, hv⟩ := Option.isSome_iff_exists.mp hsome
  have hvname : v.username = body.username := by
    have := List.find?_some hv
    simpa using this
  simp [SignUp, hv, hvname, hun]

/-- C8 witness: signing "alice" up twice: the second call is refused and the
    store keeps the single record. -/
theorem signup_conflict_nonblank_witness :
    SignUp [⟨NilObjectID, "alice", "h"⟩] (some ⟨NilObjectID, "alice", "pw"⟩) ⟨[1]⟩ =
      ([⟨NilObjectID, "alice", "h"⟩], ⟨400, .err "username already taken"⟩) :=
  signup_conflict_nonblank [⟨NilObjectID, "alice", "h"⟩] ⟨NilObjectID, "alice", "pw"⟩
    ⟨[1]⟩ (by decide) ⟨⟨NilObjectID, "alice", "h"⟩, by simp⟩

/-- C9 counterexample: a malformed task identifier makes Get answer 400
    ("Invalid task ID"), not 404 as the claim states. -/
theorem gettask_malformed_id_bad_request :
    GetTask [] hexA "zzz" = ⟨400, .err "Invalid task ID"⟩ ∧ (400 : Nat) ≠ 404 := by
  decide

/-- C9 (amended): Get fails with 404 when the well-formed task identifier and
    the owner identifier jointly match no stored task, and with 400 — not
    404 — when the supplied task identifier is malformed. -/
theorem gettask_notfound_or_badrequest (tasks : List Task)
    (userId taskId : String) :
    (ObjectIDFromHex taskId = none →
      GetTask tasks userId taskId = ⟨400, .err "Invalid task ID"⟩) ∧
    (∀ T, ObjectIDFromHex taskId = some T →
      (∀ t ∈ tasks, ¬ (t.id = T ∧ t.userId = oidFromHexOrNil userId)) →
      GetTask tasks userId taskId = ⟨404, .err "Task not found"⟩) := by
  constructor
  · intro h
    simp [GetTask, h]
  · intro T hT hno
    have hfind : findTask tasks T (oidFromHexOrNil userId) = none := by
      rw [findTask, List.find?_eq_none]
      intro t ht
      simp [hno t ht]
    simp [GetTask, hT, hfind]

/-- C9 witness: one concrete Get per branch — malformed identifier, and a
    well-formed identifier with no owned match. -/
theorem gettask_notfound_or_badrequest_witness :
    GetTask [] hexA "zzz" = ⟨400, .err "Invalid task ID"⟩ ∧
    GetTask [sampleTask] hexA hexA = ⟨404, .err "Task not found"⟩ :=
  ⟨(gettask_notfound_or_badrequest [] hexA "zzz").1 (by decide),
   (gettask_notfound_or_badrequest [sampleTask] hexA hexA).2 oidA
     (by decide) (by decide)⟩

/-- C3: signing a fresh, non-blank user up and signing in with the same
    credentials yields a token whose validation with the same secret, before
    expiry, recovers exactly the hexadecimal string form of the identifier
    sign-up produced, and the middleware attaches that string to the request
    context. -/
theorem signup_signin_token_roundtrip (store : List User) (body : User)
    (gen : ObjectID) (secret : String) (ttl now1 now2 : Int)
    (hfresh : ∀ u ∈ store, u.username ≠ body.username)
    (hun : body.username ≠ "") (hpw : body.password ≠ "")
    (hlive : now2 < now1 + ttl) :
    ∃ created : User,
      SignUp store (some body) gen = (store ++ [created], ⟨201, .user created⟩) ∧
      created.username = body.username ∧
      SignIn (store ++ [created]) (some body) secret ttl now1 =
        ⟨200, .tok (signToken secret created.id.Hex (now1 + ttl))⟩ ∧
      JWTMiddleware secret now2
          (.tok (signToken secret created.id.Hex (now1 + ttl))) =
        .ok created.id.Hex := by
  have hfind : findUserByUsername store body.username = none := by
    rw [findUserByUsername, List.find?_eq_none]
    intro u hu
    simp [hfresh u hu]
  have hsignin : ∀ c : User, c.username = body.username →
      c.password = HashPassword body.password →
      SignIn (store ++ [c]) (some body) secret ttl now1 =
        ⟨200, .tok (signToken secret c.id.Hex (now1 + ttl))⟩ := by
    intro c hcu hcp
    have hfind2 : findUserByUsername (store ++ [c]) body.username = some c := by
      rw [findUserByUsername, find?_append_of_forall_not]
      · simp [List.find?_cons, hcu]
      · intro u hu
        simp [hfresh u hu]
    simp [SignIn, hun, hpw, hfind2, CheckPasswordHash, hcp]
  have hmw : ∀ s : String,
      JWTMiddleware secret now2 (.tok (signToken secret s (now1 + ttl))) =
        .ok s := by
    intro s
    have hv : validateToken secret now2 (signToken secret s (now1 + ttl)) = .ok s := by
      rw [validateToken, if_neg (by simp only [signToken]; omega),
        if_neg (by simp [signToken])]
      rfl
    simp [JWTMiddleware, hv]
  by_cases hid : body.id = NilObjectID
  · refine ⟨{ body with password := HashPassword body.password, id := gen },
      ?_, rfl, hsignin _ rfl rfl, hmw _⟩
    simp [SignUp, hfind, hid]
  · refine ⟨{ body with password := HashPassword body.password },
      ?_, rfl, hsignin _ rfl rfl, hmw _⟩
    simp [SignUp, hfind, hid]

/-- C3 witness: a fresh sign-up of "al"/"pw" into the empty store, sign-in
    at time 1000 with a sixty-second token, validation at time 1030. -/
theorem signup_signin_token_roundtrip_witness :
    ∃ created : User,
      SignUp [] (some ⟨NilObjectID, "al", "pw"⟩) ⟨[1]⟩ =
        ([] ++ [created], ⟨201, .user created⟩) ∧
      created.username = "al" ∧
      SignIn ([] ++ [created]) (some ⟨NilObjectID, "al", "pw"⟩) "s" 60 1000 =
        ⟨200, .tok (signToken "s" created.id.Hex (1000 + 60))⟩ ∧
      JWTMiddleware "s" 1030 (.tok (signToken "s" created.id.Hex (1000 + 60))) =
        .ok created.id.Hex :=
  signup_signin_token_roundtrip [] ⟨NilObjectID, "al", "pw"⟩ ⟨[1]⟩ "s" 60 1000 1030
    (by simp) (by decide) (by decide) (by decide)

end TaskMgmt
